import Mathlib

/-!
Verification of the configuration loader of the conduit proxy
(proxy/src/config.rs).

Embedding choices:

* The `url` crate (an external dependency) is abstracted: a value of type
  `Url` records the observable components of a parsed URL (scheme, host,
  port, path, fragment), and functions that call `Url::parse` take a parse
  oracle `parse : UrlParse` (the outcome of `Url::parse` on each string).
  `Url.with_default_port` and `Url.port_or_known_default` are modelled after
  the url crate, version 1.x, which the repository uses.
* The process environment is a total map `Env` from variable names to one of
  three outcomes (present text, absent, present but not unicode), matching
  the three cases of `std::env::var` distinguished by `env_var`.
* Rust `usize`/`u64` values are natural numbers; `str::parse` for these
  types is modelled by `parse_usize` / `parse_u64` (optional leading plus
  sign, at least one ascii digit, value below 2^64).
* `Duration` counts nanoseconds, with the `from_secs` / `from_millis`
  constructors used by the source.
* The `.unwrap()` applied to the parses of the constant default listener
  strings aborts the process in Rust; it is modelled by `unwrapAddrD`, which
  returns an arbitrary `Addr` in the error case.  Theorems about a
  successful load carry the hypothesis `defaultsParse parse`, stating that
  the oracle parses the four built-in default strings the way the url crate
  does, so the error case is never reached under those hypotheses.
-/

set_option autoImplicit false

/-- One octet quadruple, mirroring `std::net::Ipv4Addr`. -/
structure Ipv4Addr where
  a : Nat
  b : Nat
  c : Nat
  d : Nat
deriving DecidableEq, Repr

/-- An IPv6 address, mirroring `std::net::Ipv6Addr`; its 128-bit value is
carried opaquely, since the config code never inspects it. -/
structure Ipv6Addr where
  value : Nat
deriving DecidableEq, Repr

/-- Mirrors `std::net::IpAddr`. -/
inductive IpAddr where
  | v4 (ip : Ipv4Addr)
  | v6 (ip : Ipv6Addr)
deriving DecidableEq, Repr

/-- Mirrors `std::net::SocketAddr`: an IP address plus a port. -/
structure SocketAddr where
  ip : IpAddr
  port : Nat
deriving DecidableEq, Repr

/-- Mirrors `url::Host`: a literal IPv4 address, a literal IPv6 address, or
a symbolic domain name. -/
inductive Host where
  | Ipv4 (ip : Ipv4Addr)
  | Ipv6 (ip : Ipv6Addr)
  | Domain (name : String)
deriving DecidableEq, Repr

/-- Whether a `Host` is a literal IP (v4 or v6) rather than a domain. -/
def Host.is_ip_literal : Host → Bool
  | .Ipv4 _ => true
  | .Ipv6 _ => true
  | .Domain _ => false

/-- The IP carried by a literal host; junk on a domain (only used under the
hypothesis `is_ip_literal`). -/
def Host.toIpAddr : Host → IpAddr
  | .Ipv4 ip => .v4 ip
  | .Ipv6 ip => .v6 ip
  | .Domain _ => .v4 ⟨0, 0, 0, 0⟩

/-- Mirrors `url::HostAndPort`. -/
structure HostAndPort where
  host : Host
  port : Nat
deriving DecidableEq, Repr

/-- The observable components of a parsed `url::Url` that the config code
reads: `scheme()`, `host()`, `port()`, `path()`, `fragment()`. -/
structure Url where
  scheme : String
  host : Option Host
  port : Option Nat
  path : String
  fragment : Option String
deriving DecidableEq, Repr

/-- Modelled from the url crate (v1.x): the well-known default port of a
scheme (`http` 80, `https` 443, `ws` 80, `wss` 443, `ftp` 21, `gopher` 70);
`tcp` has none. -/
def Url.known_default_port : String → Option Nat
  | "http" => some 80
  | "https" => some 443
  | "ws" => some 80
  | "wss" => some 443
  | "ftp" => some 21
  | "gopher" => some 70
  | _ => none

/-- Mirrors `Url::port_or_known_default`. -/
def Url.port_or_known_default (u : Url) : Option Nat :=
  match u.port with
  | some p => some p
  | none => Url.known_default_port u.scheme

/-- Mirrors `Url::with_default_port` of the url crate (v1.x): requires a
host, and a port obtained from the URL, the scheme's known default, or the
supplied fallback. -/
def Url.with_default_port (u : Url) (f : Url → Except Unit Nat) :
    Except Unit HostAndPort :=
  match u.host with
  | none => .error ()
  | some h =>
    match u.port_or_known_default with
    | some p => .ok { host := h, port := p }
    | none =>
      match f u with
      | .ok p => .ok { host := h, port := p }
      | .error _ => .error ()

/-- The outcome of `Url::parse` on each input string: `none` models a parse
error, `some u` a successful parse with observable components `u`.  The url
crate is an external dependency, so functions of the config module that
parse URLs are parametrised by this oracle. -/
abbrev UrlParse := String → Option Url

/-- A logical address; mirrors `struct Addr(SocketAddr)`. -/
structure Addr where
  sa : SocketAddr
deriving DecidableEq, Repr

/-- Mirrors `impl From<Addr> for SocketAddr`. -/
def SocketAddr.fromAddr (addr : Addr) : SocketAddr :=
  addr.sa

/-- Mirrors `struct Listener`. -/
structure Listener where
  addr : Addr
deriving DecidableEq, Repr

/-- Mirrors `std::time::Duration` as a count of nanoseconds. -/
structure Duration where
  nanos : Nat
deriving DecidableEq, Repr

/-- Mirrors `Duration::from_secs`. -/
def Duration.from_secs (secs : Nat) : Duration :=
  ⟨secs * 1000000000⟩

/-- Mirrors `Duration::from_millis`. -/
def Duration.from_millis (millis : Nat) : Duration :=
  ⟨millis * 1000000⟩

/-- Mirrors `enum UrlError` of proxy/src/config.rs. -/
inductive UrlError where
  | SyntaxError
  | UnsupportedScheme
  | MissingHost
  | MissingPort
  | PathNotAllowed
  | FragmentNotAllowed
deriving DecidableEq, Repr

/-- Mirrors `enum Error` of proxy/src/config.rs. -/
inductive Error where
  | InvalidAddr
  | ControlPlaneConfigError (raw : String) (e : UrlError)
  | NotANumber (s : String)
  | InvalidEnvVar (name : String) (value : String)
deriving DecidableEq, Repr

/-- Mirrors `struct Config` of proxy/src/config.rs (`PathBuf` as text). -/
structure Config where
  private_listener : Listener
  public_listener : Listener
  control_listener : Listener
  private_forward : Option Addr
  public_connect_timeout : Option Duration
  private_connect_timeout : Option Duration
  resolv_conf_path : String
  control_host_and_port : HostAndPort
  event_buffer_capacity : Nat
  metrics_flush_interval : Duration
deriving DecidableEq, Repr

/-- The three outcomes of `std::env::var` that `env_var` distinguishes. -/
inductive EnvResult where
  | present (value : String)
  | absent
  | notUnicode
deriving DecidableEq, Repr

/-- The process environment, as the abstract key/value lookup the spec calls
the Environment Source. -/
abbrev Env := String → EnvResult

/-- The environment with every variable absent. -/
def envEmpty : Env := fun _ => .absent

/-- The environment with exactly one variable set to a text value. -/
def envWith (key value : String) : Env :=
  fun n => if n = key then .present value else .absent

def ENV_EVENT_BUFFER_CAPACITY : String := "CONDUIT_PROXY_EVENT_BUFFER_CAPACITY"
def ENV_METRICS_FLUSH_INTERVAL_SECS : String := "CONDUIT_PROXY_METRICS_FLUSH_INTERVAL_SECS"
def ENV_PRIVATE_LISTENER : String := "CONDUIT_PROXY_PRIVATE_LISTENER"
def ENV_PRIVATE_FORWARD : String := "CONDUIT_PROXY_PRIVATE_FORWARD"
def ENV_PUBLIC_LISTENER : String := "CONDUIT_PROXY_PUBLIC_LISTENER"
def ENV_CONTROL_LISTENER : String := "CONDUIT_PROXY_CONTROL_LISTENER"
def ENV_PRIVATE_CONNECT_TIMEOUT : String := "CONDUIT_PROXY_PRIVATE_CONNECT_TIMEOUT"
def ENV_PUBLIC_CONNECT_TIMEOUT : String := "CONDUIT_PROXY_PUBLIC_CONNECT_TIMEOUT"
def ENV_CONTROL_URL : String := "CONDUIT_PROXY_CONTROL_URL"
def ENV_RESOLV_CONF : String := "CONDUIT_RESOLV_CONF"

def DEFAULT_EVENT_BUFFER_CAPACITY : Nat := 10000
def DEFAULT_METRICS_FLUSH_INTERVAL_SECS : Nat := 10
def DEFAULT_PRIVATE_LISTENER : String := "tcp://127.0.0.1:4140"
def DEFAULT_PUBLIC_LISTENER : String := "tcp://0.0.0.0:4143"
def DEFAULT_CONTROL_LISTENER : String := "tcp://0.0.0.0:4190"
def DEFAULT_CONTROL_URL : String := "tcp://proxy-api.conduit.svc.cluster.local:8086"
def DEFAULT_RESOLV_CONF : String := "/etc/resolv.conf"

/-- The numeric value of an ascii digit character, `none` otherwise. -/
def digitVal (c : Char) : Option Nat :=
  if c.isDigit then some (c.toNat - 48) else none

/-- Accumulate a decimal number over a list of characters; fails on any
non-digit. -/
def parseDigitsAux : List Char → Nat → Option Nat
  | [], acc => some acc
  | c :: cs, acc =>
    match digitVal c with
    | some d => parseDigitsAux cs (acc * 10 + d)
    | none => none

/-- Modelled from the Rust standard library: `str::parse::<u64>` — an
optional leading plus sign, then at least one ascii digit, and the value
must fit in 64 bits. -/
def parse_u64 (s : String) : Except Unit Nat :=
  let cs :=
    match s.data with
    | '+' :: rest => rest
    | cs => cs
  match cs with
  | [] => .error ()
  | _ =>
    match parseDigitsAux cs 0 with
    | some n => if n < 18446744073709551616 then .ok n else .error ()
    | none => .error ()

/-- Modelled from the Rust standard library: `str::parse::<usize>` on the
64-bit targets the proxy builds for, which is the same as `u64`. -/
def parse_usize (s : String) : Except Unit Nat :=
  parse_u64 s

/-- Mirrors `fn env_var` of proxy/src/config.rs: absence is `Ok(None)`, a
non-unicode value is `InvalidEnvVar` with the fixed text `<not unicode>`. -/
def env_var (env : Env) (name : String) : Except Error (Option String) :=
  match env name with
  | .present value => .ok (some value)
  | .absent => .ok none
  | .notUnicode => .error (.InvalidEnvVar name "<not unicode>")

/-- Error propagation of the Rust `?` operator on a `Result`. -/
def bindE {α β : Type} (x : Except Error α) (f : α → Except Error β) :
    Except Error β :=
  match x with
  | .error e => .error e
  | .ok a => f a

/-- Mirrors `fn env_var_parse` of proxy/src/config.rs: a parse failure of a
present value becomes `InvalidEnvVar` with the raw text, whatever the parse
function and its error type are. -/
def env_var_parse {ε α : Type} (env : Env) (name : String)
    (parse : String → Except ε α) : Except Error (Option α) :=
  bindE (env_var env name) (fun o =>
    match o with
    | some s =>
      match parse s with
      | .ok r => .ok (some r)
      | .error _ => .error (.InvalidEnvVar name s)
    | none => .ok none)

/-- Mirrors `impl FromStr for Addr` of proxy/src/config.rs, with `Url::parse`
supplied as the oracle `parse`. -/
def Addr.from_str (parse : UrlParse) (s : String) : Except Error Addr :=
  match parse s with
  | none => .error .InvalidAddr
  | some u =>
    match u.scheme with
    | "tcp" =>
      match u.with_default_port (fun _ => .error ()) with
      | .ok { host := .Ipv4 ip, port := port } =>
        .ok { sa := { ip := .v4 ip, port := port } }
      | .ok { host := .Ipv6 ip, port := port } =>
        .ok { sa := { ip := .v6 ip, port := port } }
      | _ => .error .InvalidAddr
    | _ => .error .InvalidAddr

/-- Mirrors `fn control_host_and_port_from_env` of proxy/src/config.rs; note
the host is extracted (with `MissingHost`) before the scheme is checked. -/
def control_host_and_port_from_env (parse : UrlParse) (env : Env)
    (key default_ : String) : Except Error HostAndPort :=
  bindE (env_var env key) (fun o =>
    let s := o.getD default_
    match parse s with
    | none => .error (.ControlPlaneConfigError s .SyntaxError)
    | some url =>
      match url.host with
      | none => .error (.ControlPlaneConfigError s .MissingHost)
      | some host =>
        if url.scheme ≠ "tcp" then
          .error (.ControlPlaneConfigError s .UnsupportedScheme)
        else
          match url.port with
          | none => .error (.ControlPlaneConfigError s .MissingPort)
          | some port =>
            if url.path ≠ "/" then
              .error (.ControlPlaneConfigError s .PathNotAllowed)
            else if url.fragment.isSome then
              .error (.ControlPlaneConfigError s .FragmentNotAllowed)
            else
              .ok { host := host, port := port })

/-- Rust `Result::unwrap` on the parses of the constant default listener
strings: the error case aborts the process in Rust and is modelled by an
arbitrary address; theorems about successful loads assume the defaults
parse, so the arbitrary value is never reached there. -/
def unwrapAddrD (r : Except Error Addr) : Addr :=
  match r with
  | .ok a => a
  | .error _ => { sa := { ip := .v4 ⟨0, 0, 0, 0⟩, port := 0 } }

/-- Mirrors `Config::load_from_env` of proxy/src/config.rs, with the url
crate abstracted as `parse` and the process environment as `env`; the binds
follow the evaluation order of the Rust source. -/
def Config.load_from_env (parse : UrlParse) (env : Env) :
    Except Error Config :=
  bindE (env_var_parse env ENV_EVENT_BUFFER_CAPACITY parse_usize) (fun ebc =>
  let event_buffer_capacity := ebc.getD DEFAULT_EVENT_BUFFER_CAPACITY
  bindE (env_var_parse env ENV_METRICS_FLUSH_INTERVAL_SECS parse_u64) (fun mfi =>
  let metrics_flush_interval :=
    Duration.from_secs (mfi.getD DEFAULT_METRICS_FLUSH_INTERVAL_SECS)
  bindE (env_var_parse env ENV_PRIVATE_LISTENER (Addr.from_str parse)) (fun privL =>
  bindE (env_var_parse env ENV_PUBLIC_LISTENER (Addr.from_str parse)) (fun pubL =>
  bindE (env_var_parse env ENV_CONTROL_LISTENER (Addr.from_str parse)) (fun ctlL =>
  bindE (env_var_parse env ENV_PRIVATE_FORWARD (Addr.from_str parse)) (fun fwd =>
  bindE (env_var_parse env ENV_PUBLIC_CONNECT_TIMEOUT parse_u64) (fun pubT =>
  bindE (env_var_parse env ENV_PRIVATE_CONNECT_TIMEOUT parse_u64) (fun privT =>
  bindE (env_var env ENV_RESOLV_CONF) (fun resolv =>
  bindE (control_host_and_port_from_env parse env ENV_CONTROL_URL DEFAULT_CONTROL_URL) (fun chp =>
  .ok {
    private_listener :=
      { addr := privL.getD
          (unwrapAddrD (Addr.from_str parse DEFAULT_PRIVATE_LISTENER)) }
    public_listener :=
      { addr := pubL.getD
          (unwrapAddrD (Addr.from_str parse DEFAULT_PUBLIC_LISTENER)) }
    control_listener :=
      { addr := ctlL.getD
          (unwrapAddrD (Addr.from_str parse DEFAULT_CONTROL_LISTENER)) }
    private_forward := fwd
    public_connect_timeout := pubT.map Duration.from_millis
    private_connect_timeout := privT.map Duration.from_millis
    resolv_conf_path := resolv.getD DEFAULT_RESOLV_CONF
    control_host_and_port := chp
    event_buffer_capacity := event_buffer_capacity
    metrics_flush_interval := metrics_flush_interval
  }))))))))))

/-- How the url crate parses `tcp://127.0.0.1:4140`. -/
def urlPrivateDefault : Url :=
  { scheme := "tcp", host := some (.Ipv4 ⟨127, 0, 0, 1⟩),
    port := some 4140, path := "/", fragment := none }

/-- How the url crate parses `tcp://0.0.0.0:4143`. -/
def urlPublicDefault : Url :=
  { scheme := "tcp", host := some (.Ipv4 ⟨0, 0, 0, 0⟩),
    port := some 4143, path := "/", fragment := none }

/-- How the url crate parses `tcp://0.0.0.0:4190`. -/
def urlControlListenerDefault : Url :=
  { scheme := "tcp", host := some (.Ipv4 ⟨0, 0, 0, 0⟩),
    port := some 4190, path := "/", fragment := none }

/-- How the url crate parses `tcp://proxy-api.conduit.svc.cluster.local:8086`. -/
def urlControlPlaneDefault : Url :=
  { scheme := "tcp", host := some (.Domain "proxy-api.conduit.svc.cluster.local"),
    port := some 8086, path := "/", fragment := none }

/-- Modelled from the spec: the url library (an external dependency, not in
the repository) parses the four built-in default strings to these component
records; the spec states that loading with no environment variables set
succeeds with the documented default endpoints. -/
def defaultsParse (parse : UrlParse) : Prop :=
  parse DEFAULT_PRIVATE_LISTENER = some urlPrivateDefault ∧
  parse DEFAULT_PUBLIC_LISTENER = some urlPublicDefault ∧
  parse DEFAULT_CONTROL_LISTENER = some urlControlListenerDefault ∧
  parse DEFAULT_CONTROL_URL = some urlControlPlaneDefault

/-- A concrete parse oracle recording exactly the default strings, used to
witness hypotheses of the form `defaultsParse parse`. -/
def parseModel : UrlParse := fun s =>
  if s = DEFAULT_PRIVATE_LISTENER then some urlPrivateDefault
  else if s = DEFAULT_PUBLIC_LISTENER then some urlPublicDefault
  else if s = DEFAULT_CONTROL_LISTENER then some urlControlListenerDefault
  else if s = DEFAULT_CONTROL_URL then some urlControlPlaneDefault
  else none

/-- The `Config` built entirely from the documented defaults. -/
def defaultConfig : Config :=
  { private_listener :=
      { addr := { sa := { ip := .v4 ⟨127, 0, 0, 1⟩, port := 4140 } } }
    public_listener :=
      { addr := { sa := { ip := .v4 ⟨0, 0, 0, 0⟩, port := 4143 } } }
    control_listener :=
      { addr := { sa := { ip := .v4 ⟨0, 0, 0, 0⟩, port := 4190 } } }
    private_forward := none
    public_connect_timeout := none
    private_connect_timeout := none
    resolv_conf_path := "/etc/resolv.conf"
    control_host_and_port :=
      { host := .Domain "proxy-api.conduit.svc.cluster.local", port := 8086 }
    event_buffer_capacity := 10000
    metrics_flush_interval := Duration.from_secs 10 }

/-- Claim C1: with every recognized environment variable absent,
`Config.load_from_env` succeeds and returns the Config whose private
listener is 127.0.0.1:4140, public listener 0.0.0.0:4143, control listener
0.0.0.0:4190, event buffer capacity 10000, metrics flush interval 10
seconds, resolver config path /etc/resolv.conf, and whose private-forward
endpoint and both connect timeouts are absent. -/
theorem load_from_env_all_absent_gives_defaults (parse : UrlParse)
    (hd : defaultsParse parse) :
    Config.load_from_env parse envEmpty = .ok defaultConfig := by
  obtain ⟨h1, h2, h3, h4⟩ := hd
  simp [Config.load_from_env, env_var_parse, env_var, envEmpty, bindE,
    control_host_and_port_from_env, Addr.from_str, Url.with_default_port,
    Url.port_or_known_default, Url.known_default_port, unwrapAddrD,
    h1, h2, h3, h4, urlPrivateDefault, urlPublicDefault,
    urlControlListenerDefault, urlControlPlaneDefault, defaultConfig,
    DEFAULT_EVENT_BUFFER_CAPACITY, DEFAULT_METRICS_FLUSH_INTERVAL_SECS,
    DEFAULT_RESOLV_CONF]

/-- Witness for C1 at the concrete oracle `parseModel`. -/
theorem load_from_env_all_absent_gives_defaults_witness :
    defaultsParse parseModel ∧
    Config.load_from_env parseModel envEmpty = .ok defaultConfig :=
  ⟨⟨rfl, rfl, rfl, rfl⟩,
   load_from_env_all_absent_gives_defaults parseModel ⟨rfl, rfl, rfl, rfl⟩⟩

/-- Claim C2: for every string that parses as a tcp URL with a literal IP
host and an explicit port, `Addr.from_str` succeeds, and converting the
resulting `Addr` to a socket address yields exactly that IP and port. -/
theorem addr_from_str_ip_roundtrip (parse : UrlParse) (s : String)
    (host : Host) (port : Nat) (path : String) (frag : Option String)
    (hp : parse s = some { scheme := "tcp", host := some host,
                           port := some port, path := path, fragment := frag })
    (hip : host.is_ip_literal = true) :
    (Addr.from_str parse s).map SocketAddr.fromAddr =
      .ok { ip := host.toIpAddr, port := port } := by
  cases host with
  | Ipv4 ip =>
    simp [Addr.from_str, hp, Url.with_default_port, Url.port_or_known_default,
      Host.toIpAddr, SocketAddr.fromAddr, Except.map]
  | Ipv6 ip =>
    simp [Addr.from_str, hp, Url.with_default_port, Url.port_or_known_default,
      Host.toIpAddr, SocketAddr.fromAddr, Except.map]
  | Domain name => simp [Host.is_ip_literal] at hip

/-- A concrete parse oracle for an IPv4 endpoint with explicit port. -/
def parseOracleV4 : UrlParse := fun s =>
  if s = "tcp://10.1.2.3:8080" then
    some { scheme := "tcp", host := some (.Ipv4 ⟨10, 1, 2, 3⟩),
           port := some 8080, path := "/", fragment := none }
  else none

/-- Witness for C2 at a concrete IPv4 endpoint string. -/
theorem addr_from_str_ip_roundtrip_witness :
    parseOracleV4 "tcp://10.1.2.3:8080" =
      some { scheme := "tcp", host := some (.Ipv4 ⟨10, 1, 2, 3⟩),
             port := some 8080, path := "/", fragment := none } ∧
    (Host.Ipv4 ⟨10, 1, 2, 3⟩).is_ip_literal = true ∧
    (Addr.from_str parseOracleV4 "tcp://10.1.2.3:8080").map SocketAddr.fromAddr =
      .ok { ip := .v4 ⟨10, 1, 2, 3⟩, port := 8080 } :=
  ⟨rfl, rfl,
   addr_from_str_ip_roundtrip parseOracleV4 "tcp://10.1.2.3:8080"
     (.Ipv4 ⟨10, 1, 2, 3⟩) 8080 "/" none rfl rfl⟩

/-- Claim C8: when a tcp URL with a literal IP host has no explicit port,
`Addr.from_str` fails with `InvalidAddr`; the default-port resolution of
`with_default_port` with the always-failing fallback reports failure. -/
theorem addr_from_str_no_default_port (parse : UrlParse) (s : String)
    (host : Host) (path : String) (frag : Option String)
    (hp : parse s = some { scheme := "tcp", host := some host,
                           port := none, path := path, fragment := frag })
    (hip : host.is_ip_literal = true) :
    Addr.from_str parse s = .error .InvalidAddr ∧
    Url.with_default_port
      { scheme := "tcp", host := some host, port := none,
        path := path, fragment := frag } (fun _ => .error ()) = .error () := by
  constructor
  · cases host <;>
      simp [Addr.from_str, hp, Url.with_default_port,
        Url.port_or_known_default, Url.known_default_port]
  · simp [Url.with_default_port, Url.port_or_known_default,
      Url.known_default_port]

/-- A concrete parse oracle for an IPv4 endpoint missing its port. -/
def parseOracleNoPort : UrlParse := fun s =>
  if s = "tcp://10.1.2.3" then
    some { scheme := "tcp", host := some (.Ipv4 ⟨10, 1, 2, 3⟩),
           port := none, path := "/", fragment := none }
  else none

/-- Witness for C8 at a concrete portless endpoint string. -/
theorem addr_from_str_no_default_port_witness :
    parseOracleNoPort "tcp://10.1.2.3" =
      some { scheme := "tcp", host := some (.Ipv4 ⟨10, 1, 2, 3⟩),
             port := none, path := "/", fragment := none } ∧
    (Host.Ipv4 ⟨10, 1, 2, 3⟩).is_ip_literal = true ∧
    Addr.from_str parseOracleNoPort "tcp://10.1.2.3" = .error .InvalidAddr :=
  ⟨rfl, rfl,
   (addr_from_str_no_default_port parseOracleNoPort "tcp://10.1.2.3"
     (.Ipv4 ⟨10, 1, 2, 3⟩) "/" none rfl rfl).1⟩

/-- Claim C9: `Addr.from_str` does not validate path or fragment — any tcp
URL with a literal IP host and explicit port is accepted with that IP and
port whatever its path and fragment are, while the Control URL Validator
rejects the same string with `PathNotAllowed` when its path is not the
root. -/
theorem addr_from_str_ignores_path_and_fragment (parse : UrlParse)
    (s : String) (host : Host) (port : Nat) (path : String)
    (frag : Option String)
    (hp : parse s = some { scheme := "tcp", host := some host,
                           port := some port, path := path, fragment := frag })
    (hip : host.is_ip_literal = true) :
    Addr.from_str parse s = .ok { sa := { ip := host.toIpAddr, port := port } } ∧
    (path ≠ "/" → ∀ key default_ : String,
      control_host_and_port_from_env parse (envWith key s) key default_ =
        .error (.ControlPlaneConfigError s .PathNotAllowed)) := by
  constructor
  · cases host with
    | Ipv4 ip =>
      simp [Addr.from_str, hp, Url.with_default_port,
        Url.port_or_known_default, Host.toIpAddr]
    | Ipv6 ip =>
      simp [Addr.from_str, hp, Url.with_default_port,
        Url.port_or_known_default, Host.toIpAddr]
    | Domain name => simp [Host.is_ip_literal] at hip
  · intro hpath key default_
    simp [control_host_and_port_from_env, bindE, env_var, envWith, hp, hpath]

/-- A concrete parse oracle for an IPv4 endpoint with a non-root path and a
fragment. -/
def parseOraclePathFrag : UrlParse := fun s =>
  if s = "tcp://10.1.2.3:8080/metrics#top" then
    some { scheme := "tcp", host := some (.Ipv4 ⟨10, 1, 2, 3⟩),
           port := some 8080, path := "/metrics", fragment := some "top" }
  else none

/-- Witness for C9 at a concrete endpoint string with path and fragment. -/
theorem addr_from_str_ignores_path_and_fragment_witness :
    parseOraclePathFrag "tcp://10.1.2.3:8080/metrics#top" =
      some { scheme := "tcp", host := some (.Ipv4 ⟨10, 1, 2, 3⟩),
             port := some 8080, path := "/metrics", fragment := some "top" } ∧
    Addr.from_str parseOraclePathFrag "tcp://10.1.2.3:8080/metrics#top" =
      .ok { sa := { ip := .v4 ⟨10, 1, 2, 3⟩, port := 8080 } } ∧
    control_host_and_port_from_env parseOraclePathFrag
      (envWith ENV_CONTROL_URL "tcp://10.1.2.3:8080/metrics#top")
      ENV_CONTROL_URL DEFAULT_CONTROL_URL =
      .error (.ControlPlaneConfigError "tcp://10.1.2.3:8080/metrics#top"
        .PathNotAllowed) :=
  ⟨rfl,
   (addr_from_str_ignores_path_and_fragment parseOraclePathFrag
     "tcp://10.1.2.3:8080/metrics#top" (.Ipv4 ⟨10, 1, 2, 3⟩) 8080 "/metrics"
     (some "top") rfl rfl).1,
   (addr_from_str_ignores_path_and_fragment parseOraclePathFrag
     "tcp://10.1.2.3:8080/metrics#top" (.Ipv4 ⟨10, 1, 2, 3⟩) 8080 "/metrics"
     (some "top") rfl rfl).2 (by decide) ENV_CONTROL_URL DEFAULT_CONTROL_URL⟩

/-- Claim C3: the Control URL Validator extracts the host before checking
the scheme — a syntactically valid URL with no host and a non-tcp scheme
fails with `MissingHost` wrapped with the raw string, not with
`UnsupportedScheme`. -/
theorem control_missing_host_checked_before_scheme (parse : UrlParse)
    (env : Env) (key s default_ : String) (u : Url)
    (he : env key = .present s) (hp : parse s = some u)
    (hh : u.host = none) (_hs : u.scheme ≠ "tcp") :
    control_host_and_port_from_env parse env key default_ =
      .error (.ControlPlaneConfigError s .MissingHost) ∧
    control_host_and_port_from_env parse env key default_ ≠
      .error (.ControlPlaneConfigError s .UnsupportedScheme) := by
  have h1 : control_host_and_port_from_env parse env key default_ =
      .error (.ControlPlaneConfigError s .MissingHost) := by
    simp [control_host_and_port_from_env, bindE, env_var, he, hp, hh]
  refine ⟨h1, ?_⟩
  rw [h1]
  simp

/-- A concrete parse oracle for a hostless non-tcp URL (the way the url
crate parses the cannot-be-a-base URL `mailto:x`). -/
def parseOracleHostless : UrlParse := fun s =>
  if s = "mailto:x" then
    some { scheme := "mailto", host := none, port := none,
           path := "x", fragment := none }
  else none

/-- Witness for C3 at the concrete URL `mailto:x`. -/
theorem control_missing_host_checked_before_scheme_witness :
    envWith ENV_CONTROL_URL "mailto:x" ENV_CONTROL_URL = .present "mailto:x" ∧
    parseOracleHostless "mailto:x" =
      some { scheme := "mailto", host := none, port := none,
             path := "x", fragment := none } ∧
    ("mailto" : String) ≠ "tcp" ∧
    control_host_and_port_from_env parseOracleHostless
      (envWith ENV_CONTROL_URL "mailto:x") ENV_CONTROL_URL
      DEFAULT_CONTROL_URL =
      .error (.ControlPlaneConfigError "mailto:x" .MissingHost) ∧
    control_host_and_port_from_env parseOracleHostless
      (envWith ENV_CONTROL_URL "mailto:x") ENV_CONTROL_URL
      DEFAULT_CONTROL_URL ≠
      .error (.ControlPlaneConfigError "mailto:x" .UnsupportedScheme) :=
  ⟨rfl, rfl, by decide,
   (control_missing_host_checked_before_scheme parseOracleHostless
     (envWith ENV_CONTROL_URL "mailto:x") ENV_CONTROL_URL "mailto:x"
     DEFAULT_CONTROL_URL _ rfl rfl rfl (by decide)).1,
   (control_missing_host_checked_before_scheme parseOracleHostless
     (envWith ENV_CONTROL_URL "mailto:x") ENV_CONTROL_URL "mailto:x"
     DEFAULT_CONTROL_URL _ rfl rfl rfl (by decide)).2⟩

/-- Claim C4: on an otherwise valid tcp control URL (host and port present),
the Control URL Validator fails with `PathNotAllowed` wrapped with the raw
string for every path other than the root, including the empty path, and
succeeds with the host and port when the path is exactly the root and there
is no fragment. -/
theorem control_path_must_be_root (parse : UrlParse) (key default_ s : String)
    (host : Host) (port : Nat) (path : String) (frag : Option String)
    (hp : parse s = some { scheme := "tcp", host := some host,
                           port := some port, path := path, fragment := frag }) :
    (path ≠ "/" →
      control_host_and_port_from_env parse (envWith key s) key default_ =
        .error (.ControlPlaneConfigError s .PathNotAllowed)) ∧
    (path = "/" → frag = none →
      control_host_and_port_from_env parse (envWith key s) key default_ =
        .ok { host := host, port := port }) := by
  constructor
  · intro hpath
    simp [control_host_and_port_from_env, bindE, env_var, envWith, hp, hpath]
  · intro hpath hfrag
    subst hpath
    subst hfrag
    simp [control_host_and_port_from_env, bindE, env_var, envWith, hp]

/-- A concrete parse oracle for control URLs with a non-root path, an empty
path, and the root path. -/
def parseOracleControlPaths : UrlParse := fun s =>
  if s = "tcp://ctl.example:8086/foo" then
    some { scheme := "tcp", host := some (.Domain "ctl.example"),
           port := some 8086, path := "/foo", fragment := none }
  else if s = "tcp-empty-path" then
    some { scheme := "tcp", host := some (.Domain "ctl.example"),
           port := some 8086, path := "", fragment := none }
  else if s = "tcp://ctl.example:8086/" then
    some { scheme := "tcp", host := some (.Domain "ctl.example"),
           port := some 8086, path := "/", fragment := none }
  else none

/-- Witness for C4: a non-root path and an empty path fail with
`PathNotAllowed`, the root path with no fragment succeeds. -/
theorem control_path_must_be_root_witness :
    parseOracleControlPaths "tcp://ctl.example:8086/foo" =
      some { scheme := "tcp", host := some (.Domain "ctl.example"),
             port := some 8086, path := "/foo", fragment := none } ∧
    control_host_and_port_from_env parseOracleControlPaths
      (envWith ENV_CONTROL_URL "tcp://ctl.example:8086/foo") ENV_CONTROL_URL
      DEFAULT_CONTROL_URL =
      .error (.ControlPlaneConfigError "tcp://ctl.example:8086/foo"
        .PathNotAllowed) ∧
    control_host_and_port_from_env parseOracleControlPaths
      (envWith ENV_CONTROL_URL "tcp-empty-path") ENV_CONTROL_URL
      DEFAULT_CONTROL_URL =
      .error (.ControlPlaneConfigError "tcp-empty-path" .PathNotAllowed) ∧
    control_host_and_port_from_env parseOracleControlPaths
      (envWith ENV_CONTROL_URL "tcp://ctl.example:8086/") ENV_CONTROL_URL
      DEFAULT_CONTROL_URL =
      .ok { host := .Domain "ctl.example", port := 8086 } :=
  ⟨rfl,
   (control_path_must_be_root parseOracleControlPaths ENV_CONTROL_URL
     DEFAULT_CONTROL_URL "tcp://ctl.example:8086/foo" (.Domain "ctl.example")
     8086 "/foo" none rfl).1 (by decide),
   (control_path_must_be_root parseOracleControlPaths ENV_CONTROL_URL
     DEFAULT_CONTROL_URL "tcp-empty-path" (.Domain "ctl.example")
     8086 "" none rfl).1 (by decide),
   (control_path_must_be_root parseOracleControlPaths ENV_CONTROL_URL
     DEFAULT_CONTROL_URL "tcp://ctl.example:8086/" (.Domain "ctl.example")
     8086 "/" none rfl).2 rfl rfl⟩

/-- Claim C5, amended: when an environment variable is present but its value
is not valid unicode text, the Environment Source returns `InvalidEnvVar`
with the variable's name and the value string `<not unicode>`, and never
reports the variable as absent. -/
theorem env_var_not_unicode_invalid (env : Env) (name : String)
    (h : env name = .notUnicode) :
    env_var env name = .error (.InvalidEnvVar name "<not unicode>") ∧
    env_var env name ≠ .ok none := by
  constructor
  · simp [env_var, h]
  · simp [env_var, h]

/-- An environment holding a single non-unicode value. -/
def envNotUnicodeAt (key : String) : Env :=
  fun n => if n = key then .notUnicode else .absent

/-- Witness for the amended C5 at a concrete environment. -/
theorem env_var_not_unicode_invalid_witness :
    envNotUnicodeAt ENV_RESOLV_CONF ENV_RESOLV_CONF = .notUnicode ∧
    env_var (envNotUnicodeAt ENV_RESOLV_CONF) ENV_RESOLV_CONF =
      .error (.InvalidEnvVar ENV_RESOLV_CONF "<not unicode>") ∧
    env_var (envNotUnicodeAt ENV_RESOLV_CONF) ENV_RESOLV_CONF ≠ .ok none :=
  ⟨rfl,
   (env_var_not_unicode_invalid (envNotUnicodeAt ENV_RESOLV_CONF)
     ENV_RESOLV_CONF rfl).1,
   (env_var_not_unicode_invalid (envNotUnicodeAt ENV_RESOLV_CONF)
     ENV_RESOLV_CONF rfl).2⟩

/-- Counterexample to C5 as stated: on a concrete non-unicode value the
Environment Source reports the value string `<not unicode>`, not
`<not text>`. -/
theorem env_var_not_text_counterexample :
    env_var (envNotUnicodeAt ENV_RESOLV_CONF) ENV_RESOLV_CONF =
      .error (.InvalidEnvVar ENV_RESOLV_CONF "<not unicode>") ∧
    env_var (envNotUnicodeAt ENV_RESOLV_CONF) ENV_RESOLV_CONF ≠
      .error (.InvalidEnvVar ENV_RESOLV_CONF "<not text>") := by
  constructor
  · rfl
  · intro hcontra
    have h1 : env_var (envNotUnicodeAt ENV_RESOLV_CONF) ENV_RESOLV_CONF =
        .error (.InvalidEnvVar ENV_RESOLV_CONF "<not unicode>") := rfl
    rw [h1] at hcontra
    injection hcontra with h2
    injection h2 with h3 h4
    exact absurd h4 (by decide)

/-- Claim C6: setting any numeric-field variable (event buffer capacity,
flush-interval seconds, either connect-timeout milliseconds) to a string
that does not parse as the expected number makes `Config.load_from_env`
fail with `InvalidEnvVar` carrying that variable's name and the raw text. -/
theorem load_invalid_numeric_env_fails (parse : UrlParse) (s : String)
    (h1 : parse_usize s = .error ()) (h2 : parse_u64 s = .error ())
    (_hd : defaultsParse parse) :
    Config.load_from_env parse (envWith ENV_EVENT_BUFFER_CAPACITY s) =
      .error (.InvalidEnvVar ENV_EVENT_BUFFER_CAPACITY s) ∧
    Config.load_from_env parse (envWith ENV_METRICS_FLUSH_INTERVAL_SECS s) =
      .error (.InvalidEnvVar ENV_METRICS_FLUSH_INTERVAL_SECS s) ∧
    Config.load_from_env parse (envWith ENV_PUBLIC_CONNECT_TIMEOUT s) =
      .error (.InvalidEnvVar ENV_PUBLIC_CONNECT_TIMEOUT s) ∧
    Config.load_from_env parse (envWith ENV_PRIVATE_CONNECT_TIMEOUT s) =
      .error (.InvalidEnvVar ENV_PRIVATE_CONNECT_TIMEOUT s) := by
  refine ⟨?_, ?_, ?_, ?_⟩ <;>
    simp [Config.load_from_env, env_var_parse, env_var, envWith, bindE, h1, h2,
      ENV_EVENT_BUFFER_CAPACITY, ENV_METRICS_FLUSH_INTERVAL_SECS,
      ENV_PRIVATE_LISTENER, ENV_PUBLIC_LISTENER, ENV_CONTROL_LISTENER,
      ENV_PRIVATE_FORWARD, ENV_PUBLIC_CONNECT_TIMEOUT,
      ENV_PRIVATE_CONNECT_TIMEOUT]

/-- Witness for C6 at the non-numeric string `abc` and the oracle that
parses the default strings. -/
theorem load_invalid_numeric_env_fails_witness :
    parse_usize "abc" = .error () ∧ parse_u64 "abc" = .error () ∧
    defaultsParse parseModel ∧
    Config.load_from_env parseModel (envWith ENV_EVENT_BUFFER_CAPACITY "abc") =
      .error (.InvalidEnvVar ENV_EVENT_BUFFER_CAPACITY "abc") ∧
    Config.load_from_env parseModel (envWith ENV_METRICS_FLUSH_INTERVAL_SECS "abc") =
      .error (.InvalidEnvVar ENV_METRICS_FLUSH_INTERVAL_SECS "abc") ∧
    Config.load_from_env parseModel (envWith ENV_PUBLIC_CONNECT_TIMEOUT "abc") =
      .error (.InvalidEnvVar ENV_PUBLIC_CONNECT_TIMEOUT "abc") ∧
    Config.load_from_env parseModel (envWith ENV_PRIVATE_CONNECT_TIMEOUT "abc") =
      .error (.InvalidEnvVar ENV_PRIVATE_CONNECT_TIMEOUT "abc") := by
  have h := load_invalid_numeric_env_fails parseModel "abc" rfl rfl
    ⟨rfl, rfl, rfl, rfl⟩
  exact ⟨rfl, rfl, ⟨rfl, rfl, rfl, rfl⟩, h.1, h.2.1, h.2.2.1, h.2.2.2⟩

/-- Claim C7: a connect-timeout variable set to a string parsing as the
integer n yields a present timeout of exactly n milliseconds in the loaded
Config; an unset connect-timeout variable yields an absent timeout, never a
zero-duration one. -/
theorem connect_timeout_present_or_absent (parse : UrlParse) (s : String)
    (n : Nat) (hn : parse_u64 s = .ok n) (hd : defaultsParse parse) :
    (Config.load_from_env parse (envWith ENV_PUBLIC_CONNECT_TIMEOUT s)).map
        (fun c => c.public_connect_timeout) =
      .ok (some (Duration.from_millis n)) ∧
    (Config.load_from_env parse (envWith ENV_PRIVATE_CONNECT_TIMEOUT s)).map
        (fun c => c.private_connect_timeout) =
      .ok (some (Duration.from_millis n)) ∧
    (Config.load_from_env parse envEmpty).map
        (fun c => c.public_connect_timeout) = .ok none ∧
    (Config.load_from_env parse envEmpty).map
        (fun c => c.private_connect_timeout) = .ok none := by
  obtain ⟨g1, g2, g3, g4⟩ := hd
  refine ⟨?_, ?_, ?_, ?_⟩ <;>
    simp [Config.load_from_env, env_var_parse, env_var, envWith, envEmpty,
      bindE, hn, control_host_and_port_from_env, Addr.from_str,
      Url.with_default_port, Url.port_or_known_default, Url.known_default_port,
      unwrapAddrD, g1, g2, g3, g4, urlPrivateDefault, urlPublicDefault,
      urlControlListenerDefault, urlControlPlaneDefault, Except.map,
      ENV_EVENT_BUFFER_CAPACITY, ENV_METRICS_FLUSH_INTERVAL_SECS,
      ENV_PRIVATE_LISTENER, ENV_PUBLIC_LISTENER, ENV_CONTROL_LISTENER,
      ENV_PRIVATE_FORWARD, ENV_PUBLIC_CONNECT_TIMEOUT,
      ENV_PRIVATE_CONNECT_TIMEOUT, ENV_RESOLV_CONF, ENV_CONTROL_URL]

/-- Witness for C7 with the value 250. -/
theorem connect_timeout_present_or_absent_witness :
    parse_u64 "250" = .ok 250 ∧ defaultsParse parseModel ∧
    (Config.load_from_env parseModel
        (envWith ENV_PUBLIC_CONNECT_TIMEOUT "250")).map
      (fun c => c.public_connect_timeout) =
      .ok (some (Duration.from_millis 250)) ∧
    (Config.load_from_env parseModel envEmpty).map
      (fun c => c.public_connect_timeout) = .ok none := by
  have h := connect_timeout_present_or_absent parseModel "250" 250 rfl
    ⟨rfl, rfl, rfl, rfl⟩
  exact ⟨rfl, ⟨rfl, rfl, rfl, rfl⟩, h.1, h.2.2.1⟩

/-- Whether an `Error` is the `NotANumber` variant. -/
def Error.is_nan : Error → Bool
  | .NotANumber _ => true
  | _ => false

/-- Whether a result carries a `NotANumber` error. -/
def resultNaN {α : Type} : Except Error α → Bool
  | .error e => e.is_nan
  | .ok _ => false

theorem env_var_no_nan (env : Env) (name : String) :
    resultNaN (env_var env name) = false := by
  unfold env_var
  cases env name <;> rfl

theorem bindE_no_nan {α β : Type} (x : Except Error α)
    (f : α → Except Error β) (hx : resultNaN x = false)
    (hf : ∀ a, resultNaN (f a) = false) :
    resultNaN (bindE x f) = false := by
  cases x with
  | error e => simpa [bindE, resultNaN] using hx
  | ok a => simpa [bindE] using hf a

theorem env_var_parse_no_nan {ε α : Type} (env : Env) (name : String)
    (p : String → Except ε α) :
    resultNaN (env_var_parse env name p) = false := by
  unfold env_var_parse
  apply bindE_no_nan _ _ (env_var_no_nan env name)
  intro o
  cases o with
  | none => rfl
  | some s => cases h : p s <;> simp [h, resultNaN, Error.is_nan]

theorem addr_from_str_no_nan (parse : UrlParse) (s : String) :
    resultNaN (Addr.from_str parse s) = false := by
  unfold Addr.from_str
  (repeat' split) <;> rfl

theorem control_no_nan (parse : UrlParse) (env : Env)
    (key default_ : String) :
    resultNaN (control_host_and_port_from_env parse env key default_) = false := by
  unfold control_host_and_port_from_env
  apply bindE_no_nan _ _ (env_var_no_nan env key)
  intro o
  dsimp only
  (repeat' split) <;> rfl

theorem load_no_nan (parse : UrlParse) (env : Env) :
    resultNaN (Config.load_from_env parse env) = false := by
  unfold Config.load_from_env
  apply bindE_no_nan _ _ (env_var_parse_no_nan env ENV_EVENT_BUFFER_CAPACITY parse_usize)
  intro ebc
  dsimp only
  apply bindE_no_nan _ _ (env_var_parse_no_nan env ENV_METRICS_FLUSH_INTERVAL_SECS parse_u64)
  intro mfi
  dsimp only
  apply bindE_no_nan _ _ (env_var_parse_no_nan env ENV_PRIVATE_LISTENER (Addr.from_str parse))
  intro privL
  apply bindE_no_nan _ _ (env_var_parse_no_nan env ENV_PUBLIC_LISTENER (Addr.from_str parse))
  intro pubL
  apply bindE_no_nan _ _ (env_var_parse_no_nan env ENV_CONTROL_LISTENER (Addr.from_str parse))
  intro ctlL
  apply bindE_no_nan _ _ (env_var_parse_no_nan env ENV_PRIVATE_FORWARD (Addr.from_str parse))
  intro fwd
  apply bindE_no_nan _ _ (env_var_parse_no_nan env ENV_PUBLIC_CONNECT_TIMEOUT parse_u64)
  intro pubT
  apply bindE_no_nan _ _ (env_var_parse_no_nan env ENV_PRIVATE_CONNECT_TIMEOUT parse_u64)
  intro privT
  apply bindE_no_nan _ _ (env_var_no_nan env ENV_RESOLV_CONF)
  intro resolv
  apply bindE_no_nan _ _ (control_no_nan parse env ENV_CONTROL_URL DEFAULT_CONTROL_URL)
  intro chp
  rfl

/-- Claim C10: no input to `Config.load_from_env`, `Addr.from_str`,
`control_host_and_port_from_env`, `env_var` or `env_var_parse` yields the
`NotANumber` error variant; numeric parse failures surface as
`InvalidEnvVar` instead. -/
theorem not_a_number_never_produced {ε α : Type} (parse : UrlParse)
    (env : Env) (s name key default_ : String) (p : String → Except ε α) :
    resultNaN (Config.load_from_env parse env) = false ∧
    resultNaN (Addr.from_str parse s) = false ∧
    resultNaN (control_host_and_port_from_env parse env key default_) = false ∧
    resultNaN (env_var env name) = false ∧
    resultNaN (env_var_parse env name p) = false :=
  ⟨load_no_nan parse env, addr_from_str_no_nan parse s,
   control_no_nan parse env key default_, env_var_no_nan env name,
   env_var_parse_no_nan env name p⟩
